import Mathlib

/-!
Verification of the `JobShardingConfig` model class from
`bacalhau_apiclient/models/job_sharding_config.py` (swagger-generated Python).

The embedding translates the Python class into Lean: field values are drawn
from a JSON-like universe `PyVal` (None, int, str, list, dict — the value
kinds this API model traffics in; the declared swagger types of the three
fields are `int` and `str`, and the setters accept values unconditionally).
Python dictionaries are modelled as ordered entry lists (Python 3 dicts
preserve insertion order); Python `==` on these values is modelled by
`pyEq`, with the order-independent key/value comparison Python uses for
dicts.
-/

/-- JSON-like Python values stored in the model's fields. `PyVal.none` models
Python's `None` singleton. -/
inductive PyVal where
  | none
  | int (n : Int)
  | str (s : String)
  | list (xs : List PyVal)
  | dict (entries : List (String × PyVal))

/-- Python's `v is None` identity test: true exactly for the `None` singleton. -/
def PyVal.isNone : PyVal → Bool
  | PyVal.none => true
  | _ => false

mutual

/-- Python `==` on the embedded values: `None == None`; ints and strings by
value; lists pointwise; dicts by order-independent key lookup (same size and
every entry of the left dict matched in the right — with unique keys, as every
Python dict has, this is exactly Python's dict equality). -/
def pyEq : PyVal → PyVal → Bool
  | PyVal.none, PyVal.none => true
  | PyVal.int m, PyVal.int n => m == n
  | PyVal.str a, PyVal.str b => a == b
  | PyVal.list xs, PyVal.list ys => pyEqList xs ys
  | PyVal.dict a, PyVal.dict b => Nat.beq a.length b.length && pySubDict a b
  | _, _ => false

/-- Pointwise Python `==` on lists (Python list equality). -/
def pyEqList : List PyVal → List PyVal → Bool
  | [], [] => true
  | x :: xs, y :: ys => pyEq x y && pyEqList xs ys
  | _, _ => false

/-- Every entry of the first dict has a matching key with a Python-equal value
in the second dict. -/
def pySubDict : List (String × PyVal) → List (String × PyVal) → Bool
  | [], _ => true
  | kv :: rest, b => pyFindEq kv.1 kv.2 b && pySubDict rest b

/-- Some entry of the dict has key `k` and a value Python-equal to `v`. -/
def pyFindEq : String → PyVal → List (String × PyVal) → Bool
  | _, _, [] => false
  | k, v, (k2, v2) :: rest => (k == k2 && pyEq v v2) || pyFindEq k v rest

end

/-- Python `==` between two dicts (`d1 == d2` in `__eq__`): same size and every
entry of the first matched in the second. -/
def pyDictEq (a b : List (String × PyVal)) : Bool :=
  Nat.beq a.length b.length && pySubDict a b

/-- Modelled from the spec: the `Configuration` class
(`bacalhau_apiclient/configuration.py`) is imported by the source file but is
not under `src/`. `JobShardingConfig` stores a `Configuration` and never reads
it, so it is modelled as an abstract record with an arbitrary payload. -/
structure Configuration where
  data : Nat
deriving DecidableEq

/-- Models the zero-argument call `Configuration()` in `__init__`. -/
def Configuration.mkDefault : Configuration := ⟨0⟩

/-- The state of a `JobShardingConfig` instance: the three private slots
assigned in `__init__` (lines 53–55), the stored `_configuration`, and the
`discriminator` attribute (line 56). -/
structure JobShardingConfig where
  _batch_size : PyVal
  _glob_pattern : PyVal
  _glob_pattern_base_path : PyVal
  _configuration : Configuration
  discriminator : PyVal

/-- `swagger_types` class attribute (lines 35–39), in dict insertion order. -/
def JobShardingConfig.swagger_types : List (String × String) :=
  [("batch_size", "int"), ("glob_pattern", "str"), ("glob_pattern_base_path", "str")]

/-- `attribute_map` class attribute (lines 41–45): attribute name to json key. -/
def JobShardingConfig.attribute_map : List (String × String) :=
  [("batch_size", "BatchSize"), ("glob_pattern", "GlobPattern"),
   ("glob_pattern_base_path", "GlobPatternBasePath")]

/-- The `batch_size` property getter (lines 65–74): returns `self._batch_size`. -/
def JobShardingConfig.batch_size (self : JobShardingConfig) : PyVal :=
  self._batch_size

/-- The `batch_size` property setter (lines 76–86): unconditionally assigns
`self._batch_size = batch_size`, no validation. -/
def JobShardingConfig.set_batch_size (self : JobShardingConfig) (batch_size : PyVal) :
    JobShardingConfig :=
  { self with _batch_size := batch_size }

/-- The `glob_pattern` property getter (lines 88–97). -/
def JobShardingConfig.glob_pattern (self : JobShardingConfig) : PyVal :=
  self._glob_pattern

/-- The `glob_pattern` property setter (lines 99–109): unconditional assignment. -/
def JobShardingConfig.set_glob_pattern (self : JobShardingConfig) (glob_pattern : PyVal) :
    JobShardingConfig :=
  { self with _glob_pattern := glob_pattern }

/-- The `glob_pattern_base_path` property getter (lines 111–120). -/
def JobShardingConfig.glob_pattern_base_path (self : JobShardingConfig) : PyVal :=
  self._glob_pattern_base_path

/-- The `glob_pattern_base_path` property setter (lines 122–132): unconditional
assignment. -/
def JobShardingConfig.set_glob_pattern_base_path (self : JobShardingConfig)
    (glob_pattern_base_path : PyVal) : JobShardingConfig :=
  { self with _glob_pattern_base_path := glob_pattern_base_path }

/-- `getattr(self, attr)` for the attribute names iterated by `to_dict`
(the keys of `swagger_types`): dispatches to the property getters. Any other
name would raise in Python; `to_dict` only ever passes the three known names,
so the catch-all branch is unreachable there. -/
def JobShardingConfig.getattr (self : JobShardingConfig) (attr : String) : PyVal :=
  if attr == "batch_size" then self.batch_size
  else if attr == "glob_pattern" then self.glob_pattern
  else if attr == "glob_pattern_base_path" then self.glob_pattern_base_path
  else PyVal.none

/-- The per-attribute value conversion in the `to_dict` loop (lines 139–154):
a list value is mapped elementwise with `x.to_dict() if hasattr(x, "to_dict")
else x`, a value with a `to_dict` method is converted, a dict value has the
conversion mapped over its values, and any other value is used as-is. No value
of the embedded universe (None, int, str, list, dict) carries a `to_dict`
method, so each branch keeps the value unchanged. -/
def toDictValue : PyVal → PyVal
  | PyVal.list xs => PyVal.list (xs.map (fun x => x))
  | PyVal.dict entries => PyVal.dict (entries.map (fun item => item))
  | v => v

/-- `to_dict` (lines 134–159): iterates `six.iteritems(self.swagger_types)` in
insertion order, storing `result[attr] = <converted getattr(self, attr)>`
keyed by the ATTRIBUTE name. The trailing `issubclass(JobShardingConfig, dict)`
merge never runs: the class derives from `object`, not `dict`. -/
def JobShardingConfig.to_dict (self : JobShardingConfig) : List (String × PyVal) :=
  JobShardingConfig.swagger_types.map (fun p => (p.1, toDictValue (self.getattr p.1)))

mutual

/-- Rendering of a value in the style of Python `repr`, used to model
`pprint.pformat`: a pure, deterministic function of the value. -/
def pyRepr : PyVal → String
  | PyVal.none => "None"
  | PyVal.int n => toString n
  | PyVal.str s => "\x27" ++ s ++ "\x27"
  | PyVal.list xs => "[" ++ pyReprList xs ++ "]"
  | PyVal.dict entries => "\x7b" ++ pyReprEntries entries ++ "\x7d"

/-- Comma-separated rendering of list elements. -/
def pyReprList : List PyVal → String
  | [] => ""
  | [x] => pyRepr x
  | x :: xs => pyRepr x ++ ", " ++ pyReprList xs

/-- Comma-separated rendering of dict entries. -/
def pyReprEntries : List (String × PyVal) → String
  | [] => ""
  | [(k, v)] => "\x27" ++ k ++ "\x27: " ++ pyRepr v
  | (k, v) :: rest => "\x27" ++ k ++ "\x27: " ++ pyRepr v ++ ", " ++ pyReprEntries rest

end

/-- Models `pprint.pformat` applied to the dict returned by `to_dict`: a
deterministic, pure rendering of the mapping (the exact layout chosen by
`pprint` is immaterial to the claims; only determinism and dependence on the
dict alone matter). -/
def pformatDict (d : List (String × PyVal)) : String :=
  pyRepr (PyVal.dict d)

/-- `to_str` (lines 161–163): `pprint.pformat(self.to_dict())`. -/
def JobShardingConfig.to_str (self : JobShardingConfig) : String :=
  pformatDict self.to_dict

/-- An arbitrary Python object passed to `__eq__`/`__ne__`: either a
`JobShardingConfig` instance or any other value. -/
inductive PyObject where
  | val (v : PyVal)
  | sharding (c : JobShardingConfig)

/-- `__eq__` (lines 169–174): `False` unless `other` is a `JobShardingConfig`,
otherwise Python dict equality of `self.to_dict()` and `other.to_dict()`. -/
def JobShardingConfig.__eq__ (self : JobShardingConfig) (other : PyObject) : Bool :=
  match other with
  | PyObject.sharding o => pyDictEq self.to_dict o.to_dict
  | PyObject.val _ => false

/-- `__ne__` (lines 176–181): `True` unless `other` is a `JobShardingConfig`,
otherwise `self.to_dict() != other.to_dict()` (Python dict inequality, the
negation of dict equality). -/
def JobShardingConfig.__ne__ (self : JobShardingConfig) (other : PyObject) : Bool :=
  match other with
  | PyObject.sharding o => !(pyDictEq self.to_dict o.to_dict)
  | PyObject.val _ => true

/-- `__init__` (lines 47–63): stores `_configuration` (defaulting to
`Configuration()` when the argument is `None`, modelled by `Option.none`),
initializes the three private slots to `None` and `discriminator` to `None`,
then assigns each field through its property setter only when the argument
`is not None`. -/
def JobShardingConfig.init (batch_size glob_pattern glob_pattern_base_path : PyVal)
    (conf : Option Configuration) : JobShardingConfig :=
  let c : Configuration :=
    match conf with
    | Option.none => Configuration.mkDefault
    | Option.some c0 => c0
  let s0 : JobShardingConfig :=
    { _batch_size := PyVal.none, _glob_pattern := PyVal.none,
      _glob_pattern_base_path := PyVal.none, _configuration := c,
      discriminator := PyVal.none }
  let s1 := if (PyVal.isNone batch_size) then s0 else s0.set_batch_size batch_size
  let s2 := if (PyVal.isNone glob_pattern) then s1 else s1.set_glob_pattern glob_pattern
  let s3 :=
    if (PyVal.isNone glob_pattern_base_path) then s2
    else s2.set_glob_pattern_base_path glob_pattern_base_path
  s3

/-- A call site of the constructor, with Python's default-argument mechanism
made explicit: `Option.none` models an argument omitted at the call site (the
parameter then takes its declared default `None`), `Option.some v` models the
argument passed explicitly as `v`. -/
def JobShardingConfig.initOpt (batch_size glob_pattern glob_pattern_base_path : Option PyVal)
    (conf : Option Configuration) : JobShardingConfig :=
  JobShardingConfig.init (batch_size.getD PyVal.none) (glob_pattern.getD PyVal.none)
    (glob_pattern_base_path.getD PyVal.none) conf

/-! ## General lemmas about the embedding -/

/-- Every branch of the `to_dict` value conversion keeps an embedded value
unchanged: no embedded value carries a `to_dict` method. -/
theorem toDictValue_id (v : PyVal) : toDictValue v = v := by
  cases v <;> simp [toDictValue]

/-- `to_dict` produces exactly the three attribute-named entries, carrying the
current private slot values, in `swagger_types` iteration order. -/
theorem JobShardingConfig.to_dict_eq (s : JobShardingConfig) :
    s.to_dict = [("batch_size", s._batch_size), ("glob_pattern", s._glob_pattern),
      ("glob_pattern_base_path", s._glob_pattern_base_path)] := by
  simp [JobShardingConfig.to_dict, JobShardingConfig.swagger_types, JobShardingConfig.getattr,
    JobShardingConfig.batch_size, JobShardingConfig.glob_pattern,
    JobShardingConfig.glob_pattern_base_path, toDictValue_id]

/-- The constructor leaves each private slot holding exactly the corresponding
argument: when the argument is `None` the slot keeps its initial `None`, and
otherwise the guarded setter stores the argument. -/
theorem JobShardingConfig.init_fields (v1 v2 v3 : PyVal) (c : Option Configuration) :
    (JobShardingConfig.init v1 v2 v3 c)._batch_size = v1 ∧
    (JobShardingConfig.init v1 v2 v3 c)._glob_pattern = v2 ∧
    (JobShardingConfig.init v1 v2 v3 c)._glob_pattern_base_path = v3 := by
  cases v1 <;> cases v2 <;> cases v3 <;> exact ⟨rfl, rfl, rfl⟩

/-- A key/value pair present in a dict, whose value is Python-reflexive, is
found by the lookup of `pyFindEq`. -/
theorem pyFindEq_of_mem (b : List (String × PyVal)) (k : String) (v : PyVal)
    (hmem : (k, v) ∈ b) (hrefl : pyEq v v = true) : pyFindEq k v b = true := by
  induction b with
  | nil => simp at hmem
  | cons kv rest ih =>
      rcases List.mem_cons.mp hmem with h | h
      · obtain ⟨k2, v2⟩ := kv
        obtain ⟨hk, hv⟩ := Prod.mk.injEq .. ▸ h.symm
        simp [pyFindEq, hk, hv, hrefl]
      · obtain ⟨k2, v2⟩ := kv
        simp [pyFindEq, ih h]

/-- `pySubDict` holds whenever every entry of the left dict is found in the
right dict. -/
theorem pySubDict_of (a b : List (String × PyVal))
    (h : ∀ kv ∈ a, pyFindEq kv.1 kv.2 b = true) : pySubDict a b = true := by
  induction a with
  | nil => simp [pySubDict]
  | cons kv rest ih =>
      simp [pySubDict, h kv (by simp), ih (fun kv2 hm => h kv2 (by simp [hm]))]

/-- Pointwise list equality holds when every element is Python-reflexive. -/
theorem pyEqList_of (xs : List PyVal) (h : ∀ x ∈ xs, pyEq x x = true) :
    pyEqList xs xs = true := by
  induction xs with
  | nil => simp [pyEqList]
  | cons x rest ih =>
      simp [pyEqList, h x (by simp), ih (fun y hm => h y (by simp [hm]))]

/-- Python `==` is reflexive on the embedded values (strong induction on size). -/
theorem pyEq_refl_sized : ∀ (n : Nat) (v : PyVal), sizeOf v ≤ n → pyEq v v = true := by
  intro n
  induction n with
  | zero => intro v h; cases v <;> simp at h
  | succ n ih =>
      intro v h
      cases v with
      | none => simp [pyEq]
      | int m => simp [pyEq]
      | str s => simp [pyEq]
      | list xs =>
          have hx : ∀ x ∈ xs, pyEq x x = true := by
            intro x hm
            apply ih
            have h1 : sizeOf x < sizeOf xs := List.sizeOf_lt_of_mem hm
            have h2 : sizeOf (PyVal.list xs) = 1 + sizeOf xs := by simp
            omega
          simp [pyEq, pyEqList_of xs hx]
      | dict a =>
          have hx : ∀ kv ∈ a, pyFindEq kv.1 kv.2 a = true := by
            intro kv hm
            apply pyFindEq_of_mem a kv.1 kv.2 (by simpa using hm)
            apply ih
            have h1 : sizeOf kv < sizeOf a := List.sizeOf_lt_of_mem hm
            have h2 : sizeOf kv.2 < sizeOf kv := by
              obtain ⟨k0, v0⟩ := kv
              simp
            have h3 : sizeOf (PyVal.dict a) = 1 + sizeOf a := by simp
            omega
          simp [pyEq, pySubDict_of a a hx, Nat.beq_refl]

/-- Python `==` is reflexive on the embedded values. -/
theorem pyEq_refl (v : PyVal) : pyEq v v = true :=
  pyEq_refl_sized (sizeOf v) v (Nat.le_refl _)

/-- Python dict equality is reflexive. -/
theorem pyDictEq_refl (d : List (String × PyVal)) : pyDictEq d d = true := by
  simp [pyDictEq, Nat.beq_refl,
    pySubDict_of d d (fun kv hm => pyFindEq_of_mem d kv.1 kv.2 (by simpa using hm) (pyEq_refl kv.2))]

/-- `to_dict` after construction yields the three internal attribute names,
each carrying the corresponding constructor argument. -/
theorem JobShardingConfig.init_to_dict (v1 v2 v3 : PyVal) (c : Option Configuration) :
    (JobShardingConfig.init v1 v2 v3 c).to_dict =
      [("batch_size", v1), ("glob_pattern", v2), ("glob_pattern_base_path", v3)] := by
  obtain ⟨h1, h2, h3⟩ := JobShardingConfig.init_fields v1 v2 v3 c
  rw [JobShardingConfig.to_dict_eq, h1, h2, h3]

/-! ## Concrete instances used by witnesses -/

/-- A concrete instance: all three fields populated, default configuration. -/
def sampleA : JobShardingConfig :=
  { _batch_size := PyVal.int 10, _glob_pattern := PyVal.str "/*",
    _glob_pattern_base_path := PyVal.str "/data", _configuration := ⟨0⟩,
    discriminator := PyVal.none }

/-- A concrete instance with the same field values as `sampleA` but a different
stored configuration. -/
def sampleB : JobShardingConfig :=
  { _batch_size := PyVal.int 10, _glob_pattern := PyVal.str "/*",
    _glob_pattern_base_path := PyVal.str "/data", _configuration := ⟨1⟩,
    discriminator := PyVal.none }

/-! ## Claims -/

/-- C1 counterexample: constructing with only `batch_size=10` supplied. The
claim says `to_dict()` yields a mapping containing exactly the supplied fields
under the external names of `attribute_map`, i.e. the one-entry mapping
`BatchSize ↦ 10`. The code instead returns a three-entry mapping keyed by the
internal attribute names, with the unsupplied fields present as `None`; as a
Python mapping it is not equal to the claimed one. -/
theorem C1_counterexample :
    pyDictEq ((JobShardingConfig.init (PyVal.int 10) PyVal.none PyVal.none Option.none).to_dict)
        [("BatchSize", PyVal.int 10)] = false ∧
    (JobShardingConfig.init (PyVal.int 10) PyVal.none PyVal.none Option.none).to_dict =
      [("batch_size", PyVal.int 10), ("glob_pattern", PyVal.none),
       ("glob_pattern_base_path", PyVal.none)] :=
  ⟨rfl, rfl⟩

/-- C1 (amended): for every combination of the three optional fields (each
present or absent — absent modelled by the default `None` —, with any value),
`to_dict()` yields the mapping keyed by the INTERNAL attribute names
`batch_size`, `glob_pattern`, `glob_pattern_base_path` (not the
`attribute_map` names), in which every supplied field carries its supplied
value and every absent field is present with value `None`. -/
theorem C1_to_dict_internal_keys :
    ∀ (v1 v2 v3 : PyVal) (c : Option Configuration),
      (JobShardingConfig.init v1 v2 v3 c).to_dict =
        [("batch_size", v1), ("glob_pattern", v2), ("glob_pattern_base_path", v3)] := by
  intro v1 v2 v3 c
  exact JobShardingConfig.init_to_dict v1 v2 v3 c

/-- C2 counterexample: constructing with `batch_size=10, glob_pattern="/*",
glob_pattern_base_path="/data"` does NOT serialize to the claimed mapping
`BatchSize ↦ 10, GlobPattern ↦ "/*", GlobPatternBasePath ↦ "/data"`: the keys
produced by `to_dict` are the internal attribute names, so the two mappings
share no key and compare unequal as Python dicts. -/
theorem C2_counterexample :
    pyDictEq
      ((JobShardingConfig.init (PyVal.int 10) (PyVal.str "/*") (PyVal.str "/data")
          Option.none).to_dict)
      [("BatchSize", PyVal.int 10), ("GlobPattern", PyVal.str "/*"),
       ("GlobPatternBasePath", PyVal.str "/data")] = false := by
  simp [pyDictEq, pySubDict, pyFindEq, JobShardingConfig.to_dict, JobShardingConfig.getattr,
    JobShardingConfig.swagger_types, JobShardingConfig.init, PyVal.isNone,
    JobShardingConfig.set_batch_size, JobShardingConfig.set_glob_pattern,
    JobShardingConfig.set_glob_pattern_base_path, JobShardingConfig.batch_size,
    JobShardingConfig.glob_pattern, JobShardingConfig.glob_pattern_base_path, toDictValue]

/-- C2 (amended): constructing with `batch_size=10, glob_pattern="/*",
glob_pattern_base_path="/data"` and calling `to_dict()` produces exactly the
mapping `batch_size ↦ 10, glob_pattern ↦ "/*", glob_pattern_base_path ↦
"/data"` (internal attribute names as keys). -/
theorem C2_to_dict_example :
    (JobShardingConfig.init (PyVal.int 10) (PyVal.str "/*") (PyVal.str "/data")
        Option.none).to_dict =
      [("batch_size", PyVal.int 10), ("glob_pattern", PyVal.str "/*"),
       ("glob_pattern_base_path", PyVal.str "/data")] :=
  rfl

/-- C3: constructing with no arguments (all parameters at their `None`
defaults, no configuration) and calling `to_dict()` yields a mapping in which
all three field keys are present and each is mapped to `None`. -/
theorem C3_to_dict_no_arguments :
    (JobShardingConfig.init PyVal.none PyVal.none PyVal.none Option.none).to_dict =
      [("batch_size", PyVal.none), ("glob_pattern", PyVal.none),
       ("glob_pattern_base_path", PyVal.none)] :=
  rfl

/-- C4: two instances whose three field values are pairwise equal under Python
`==` — however those values were supplied, at construction or via setters, and
in any order, since the statement quantifies over all instance states — compare
equal under `__eq__`; and changing exactly one field (through its setter) to a
value that is not Python-equal to the old one makes `__eq__` with the original
return `False`. -/
theorem C4_eq_fields :
    (∀ a b : JobShardingConfig,
      pyEq a._batch_size b._batch_size = true →
      pyEq a._glob_pattern b._glob_pattern = true →
      pyEq a._glob_pattern_base_path b._glob_pattern_base_path = true →
      a.__eq__ (PyObject.sharding b) = true) ∧
    (∀ (a : JobShardingConfig) (v : PyVal), pyEq a._batch_size v = false →
      a.__eq__ (PyObject.sharding (a.set_batch_size v)) = false) ∧
    (∀ (a : JobShardingConfig) (v : PyVal), pyEq a._glob_pattern v = false →
      a.__eq__ (PyObject.sharding (a.set_glob_pattern v)) = false) ∧
    (∀ (a : JobShardingConfig) (v : PyVal), pyEq a._glob_pattern_base_path v = false →
      a.__eq__ (PyObject.sharding (a.set_glob_pattern_base_path v)) = false) := by
  refine ⟨?_, ?_, ?_, ?_⟩
  · intro a b h1 h2 h3
    simp [JobShardingConfig.__eq__, JobShardingConfig.to_dict_eq, pyDictEq, pySubDict,
      pyFindEq, h1, h2, h3]
  · intro a v h
    simp [JobShardingConfig.__eq__, JobShardingConfig.to_dict_eq, JobShardingConfig.set_batch_size,
      pyDictEq, pySubDict, pyFindEq, h]
  · intro a v h
    simp [JobShardingConfig.__eq__, JobShardingConfig.to_dict_eq, JobShardingConfig.set_glob_pattern,
      pyDictEq, pySubDict, pyFindEq, h, pyEq_refl]
  · intro a v h
    simp [JobShardingConfig.__eq__, JobShardingConfig.to_dict_eq,
      JobShardingConfig.set_glob_pattern_base_path, pyDictEq, pySubDict, pyFindEq, h, pyEq_refl]

/-- C4 witness: `sampleA` and `sampleB` hold equal field values and compare
equal; changing `sampleA`'s batch size to `3` (not Python-equal to `10`) breaks
equality with the original, and likewise for the other two fields. -/
theorem C4_eq_fields_witness :
    sampleA.__eq__ (PyObject.sharding sampleB) = true ∧
    sampleA.__eq__ (PyObject.sharding (sampleA.set_batch_size (PyVal.int 3))) = false ∧
    sampleA.__eq__ (PyObject.sharding (sampleA.set_glob_pattern (PyVal.str "/a/*"))) = false ∧
    sampleA.__eq__ (PyObject.sharding (sampleA.set_glob_pattern_base_path PyVal.none)) = false :=
  ⟨C4_eq_fields.1 sampleA sampleB (by simp [sampleA, sampleB, pyEq])
      (by simp [sampleA, sampleB, pyEq]) (by simp [sampleA, sampleB, pyEq]),
   C4_eq_fields.2.1 sampleA (PyVal.int 3) (by simp [sampleA, pyEq]),
   C4_eq_fields.2.2.1 sampleA (PyVal.str "/a/*") (by simp [sampleA, pyEq]),
   C4_eq_fields.2.2.2 sampleA PyVal.none (by simp [sampleA, pyEq])⟩

/-- C5: comparing an instance with a value that is not a `JobShardingConfig`
returns `False` from `__eq__` and `True` from `__ne__`; both are total
functions of the embedding (the Python bodies only perform an `isinstance`
test and a dict comparison, neither of which can raise). -/
theorem C5_other_type_not_equal :
    ∀ (self : JobShardingConfig) (v : PyVal),
      self.__eq__ (PyObject.val v) = false ∧ self.__ne__ (PyObject.val v) = true := by
  intro self v
  exact ⟨rfl, rfl⟩

/-- C6: `to_str` is a deterministic pure function of the three field values:
instances with equal field values render identically, and rendering the same
unmodified instance twice gives the same string. -/
theorem C6_to_str_deterministic :
    (∀ a b : JobShardingConfig, a._batch_size = b._batch_size →
      a._glob_pattern = b._glob_pattern →
      a._glob_pattern_base_path = b._glob_pattern_base_path →
      a.to_str = b.to_str) ∧
    ∀ a : JobShardingConfig, a.to_str = a.to_str := by
  constructor
  · intro a b h1 h2 h3
    simp [JobShardingConfig.to_str, JobShardingConfig.to_dict_eq, h1, h2, h3]
  · intro a
    rfl

/-- C6 witness: `sampleA` and `sampleB` carry equal field values (differing
only in their stored configuration) and render to the same string. -/
theorem C6_to_str_deterministic_witness : sampleA.to_str = sampleB.to_str :=
  C6_to_str_deterministic.1 sampleA sampleB rfl rfl rfl

/-- C7: each setter replaces exactly its own field with the supplied value —
any value, unconditionally, with no validation — leaving the other two fields
unchanged, and the getter then returns exactly the value that was set. -/
theorem C7_setters_frame :
    ∀ (s : JobShardingConfig) (v : PyVal),
      ((s.set_batch_size v).batch_size = v ∧
       (s.set_batch_size v).glob_pattern = s.glob_pattern ∧
       (s.set_batch_size v).glob_pattern_base_path = s.glob_pattern_base_path) ∧
      ((s.set_glob_pattern v).glob_pattern = v ∧
       (s.set_glob_pattern v).batch_size = s.batch_size ∧
       (s.set_glob_pattern v).glob_pattern_base_path = s.glob_pattern_base_path) ∧
      ((s.set_glob_pattern_base_path v).glob_pattern_base_path = v ∧
       (s.set_glob_pattern_base_path v).batch_size = s.batch_size ∧
       (s.set_glob_pattern_base_path v).glob_pattern = s.glob_pattern) := by
  intro s v
  exact ⟨⟨rfl, rfl, rfl⟩, ⟨rfl, rfl, rfl⟩, ⟨rfl, rfl, rfl⟩⟩

/-- C8: for every instance and every value of any kind, `__ne__` returns the
Boolean negation of `__eq__` on the same pair. -/
theorem C8_ne_is_negation :
    ∀ (self : JobShardingConfig) (other : PyObject),
      self.__ne__ other = !(self.__eq__ other) := by
  intro self other
  cases other with
  | val v => rfl
  | sharding o => rfl

/-- C9: for each field, passing the field explicitly as `None` at the call
site produces exactly the same instance as omitting the argument: the internal
slot stays at the `None` sentinel, and `to_dict`, `to_str` and `__eq__` cannot
distinguish the two. -/
theorem C9_explicit_none_eq_omitted :
    ∀ (o1 o2 o3 : Option PyVal) (c : Option Configuration),
      (JobShardingConfig.initOpt (Option.some PyVal.none) o2 o3 c =
         JobShardingConfig.initOpt Option.none o2 o3 c ∧
       (JobShardingConfig.initOpt (Option.some PyVal.none) o2 o3 c)._batch_size = PyVal.none) ∧
      (JobShardingConfig.initOpt o1 (Option.some PyVal.none) o3 c =
         JobShardingConfig.initOpt o1 Option.none o3 c ∧
       (JobShardingConfig.initOpt o1 (Option.some PyVal.none) o3 c)._glob_pattern = PyVal.none) ∧
      (JobShardingConfig.initOpt o1 o2 (Option.some PyVal.none) c =
         JobShardingConfig.initOpt o1 o2 Option.none c ∧
       (JobShardingConfig.initOpt o1 o2 (Option.some PyVal.none) c)._glob_pattern_base_path =
         PyVal.none) ∧
      (JobShardingConfig.initOpt (Option.some PyVal.none) o2 o3 c).to_dict =
        (JobShardingConfig.initOpt Option.none o2 o3 c).to_dict ∧
      (JobShardingConfig.initOpt (Option.some PyVal.none) o2 o3 c).to_str =
        (JobShardingConfig.initOpt Option.none o2 o3 c).to_str ∧
      (JobShardingConfig.initOpt (Option.some PyVal.none) o2 o3 c).__eq__
        (PyObject.sharding (JobShardingConfig.initOpt Option.none o2 o3 c)) = true := by
  intro o1 o2 o3 c
  refine ⟨⟨rfl, ?_⟩, ⟨rfl, ?_⟩, ⟨rfl, ?_⟩, rfl, rfl, ?_⟩
  · exact (JobShardingConfig.init_fields _ _ _ _).1
  · exact (JobShardingConfig.init_fields _ _ _ _).2.1
  · exact (JobShardingConfig.init_fields _ _ _ _).2.2
  · exact pyDictEq_refl _

/-- C10: the `_configuration` constructor argument influences no observable
output: instances built from the same field values but different (or
defaulted) configurations produce identical `to_dict` and `to_str` results and
compare equal under `__eq__`. -/
theorem C10_configuration_noninterference :
    ∀ (v1 v2 v3 : PyVal) (c1 c2 : Option Configuration), c1 ≠ c2 →
      (JobShardingConfig.init v1 v2 v3 c1).to_dict =
        (JobShardingConfig.init v1 v2 v3 c2).to_dict ∧
      (JobShardingConfig.init v1 v2 v3 c1).to_str =
        (JobShardingConfig.init v1 v2 v3 c2).to_str ∧
      (JobShardingConfig.init v1 v2 v3 c1).__eq__
        (PyObject.sharding (JobShardingConfig.init v1 v2 v3 c2)) = true := by
  intro v1 v2 v3 c1 c2 hne
  have hd : (JobShardingConfig.init v1 v2 v3 c1).to_dict =
      (JobShardingConfig.init v1 v2 v3 c2).to_dict := by
    rw [JobShardingConfig.init_to_dict v1 v2 v3 c1, JobShardingConfig.init_to_dict v1 v2 v3 c2]
  refine ⟨hd, ?_, ?_⟩
  · simp [JobShardingConfig.to_str, hd]
  · show pyDictEq _ _ = true
    rw [hd]
    exact pyDictEq_refl _

/-- C10 witness: concrete instances with fields `10, "/*", "/data"` and the
distinct configurations `⟨0⟩` and `⟨1⟩` are observably identical. -/
theorem C10_configuration_noninterference_witness :
    (JobShardingConfig.init (PyVal.int 10) (PyVal.str "/*") (PyVal.str "/data")
        (Option.some ⟨0⟩)).to_dict =
      (JobShardingConfig.init (PyVal.int 10) (PyVal.str "/*") (PyVal.str "/data")
        (Option.some ⟨1⟩)).to_dict ∧
    (JobShardingConfig.init (PyVal.int 10) (PyVal.str "/*") (PyVal.str "/data")
        (Option.some ⟨0⟩)).to_str =
      (JobShardingConfig.init (PyVal.int 10) (PyVal.str "/*") (PyVal.str "/data")
        (Option.some ⟨1⟩)).to_str ∧
    (JobShardingConfig.init (PyVal.int 10) (PyVal.str "/*") (PyVal.str "/data")
        (Option.some ⟨0⟩)).__eq__
      (PyObject.sharding (JobShardingConfig.init (PyVal.int 10) (PyVal.str "/*")
        (PyVal.str "/data") (Option.some ⟨1⟩))) = true :=
  C10_configuration_noninterference (PyVal.int 10) (PyVal.str "/*") (PyVal.str "/data")
    (Option.some ⟨0⟩) (Option.some ⟨1⟩) (by decide)
